import Mathlib

/-!
# dfanso-tunnel-client: a shallow embedding of the tunnel endpoint

The development embeds `src/tunnelManager.js` (classes `TunnelManager` and
`Tunnel`) and the prompt validators of `bin/cli.js`.

Conventions of the embedding.

* JavaScript strings are Lean `String`s.  Every string the modelled code
  inspects character by character (`parseInt`, the sub-domain regular
  expression) is inspected for ASCII characters only, for which UTF-16 code
  units and Unicode scalar values coincide.
* A value that may be `undefined` is an `Option`; the number `NaN` is `none`
  in an `Option Int`.
* `JSON.stringify (v)` followed by `ws.send` is modelled by the JSON value that
  the produced text denotes: keys whose value is `undefined` are omitted and
  `NaN` becomes `null`, as `JSON.stringify` does.
* An event handler is a function from the handler's closure state and the
  event to the new state and the list of effects it performed, in order.
-/

set_option autoImplicit false

namespace TunnelClient

/-! ## JSON values -/

/-- JSON data as produced by `JSON.parse` and consumed by `JSON.stringify`.
An object is the list of its own properties in property order; the numbers
the modelled code reads or builds (ports, status codes) are integers. -/
inductive Json where
  | null : Json
  | bool (b : Bool) : Json
  | num (n : Int) : Json
  | str (s : String) : Json
  | arr (items : List Json) : Json
  | obj (props : List (String × Json)) : Json
  deriving Inhabited

/-- First entry with the given key in a property list (`o[key]` on own
properties). -/
def lookupProp (key : String) : List (String × Json) → Option Json
  | [] => none
  | (k, v) :: rest => if k = key then some v else lookupProp key rest

/-- Assignment `o[key] = v` on a property list: an existing key keeps its
position and gets the new value, a new key is appended. -/
def setProp (key : String) (v : Json) : List (String × Json) → List (String × Json)
  | [] => [(key, v)]
  | (k, w) :: rest => if k = key then (k, v) :: rest else (k, w) :: setProp key v rest

/-- Property read `value.key` on a JSON value that is not `null`: own
property of an object, `undefined` (`none`) on anything else.  (Neither
`Object.prototype`, `Array.prototype`, `String.prototype`, `Number.prototype`
nor `Boolean.prototype` has a property called `type`, `clientId`, `method`,
`path`, `headers`, `body`, `details` or `targetPort`.) -/
def Json.get (key : String) : Json → Option Json
  | Json.obj props => lookupProp key props
  | _ => none

/-- JavaScript truthiness of a possibly-undefined JSON value. -/
def truthy : Option Json → Bool
  | none => false
  | some Json.null => false
  | some (Json.bool b) => b
  | some (Json.num n) => n != 0
  | some (Json.str s) => s != ""
  | some (Json.arr _) => true
  | some (Json.obj _) => true

/-- Own enumerable properties copied by object spread `{ ...v }`: the
properties of an object, the indexed elements of an array or of a string
(by character, which is by code unit on the Basic Multilingual Plane), and
nothing for `undefined`, `null`, a number or a boolean. -/
def spreadProps : Option Json → List (String × Json)
  | some (Json.obj props) => props
  | some (Json.arr items) => (List.range items.length).zip items |>.map fun p => (toString p.1, p.2)
  | some (Json.str s) =>
      (List.range s.length).zip s.toList |>.map fun p => (toString p.1, Json.str (String.singleton p.2))
  | _ => []

/-- `JSON.stringify` of a number-valued field: `NaN` is written `null`. -/
def numberField : Option Int → Json
  | some n => Json.num n
  | none => Json.null

/-- One `key: value` entry of an object literal handed to `JSON.stringify`:
the key is omitted when the value is `undefined`. -/
def optionalField (key : String) : Option Json → List (String × Json)
  | some v => [(key, v)]
  | none => []

/-! ## JavaScript built-ins used by the source -/

/-- White space and line terminators skipped by `parseInt`
(ECMAScript `StrWhiteSpaceChar`). -/
def isStrWhiteSpace (c : Char) : Bool :=
  let n := c.toNat
  n == 0x09 || n == 0x0A || n == 0x0B || n == 0x0C || n == 0x0D || n == 0x20
    || n == 0xA0 || n == 0x1680 || (0x2000 ≤ n && n ≤ 0x200A) || n == 0x2028
    || n == 0x2029 || n == 0x202F || n == 0x205F || n == 0x3000 || n == 0xFEFF

/-- Value of a character as a digit in the given radix, if it is one. -/
def digitOf (radix : Nat) (c : Char) : Option Nat :=
  let n := c.toNat
  let v : Option Nat :=
    if 48 ≤ n ∧ n ≤ 57 then some (n - 48)
    else if 97 ≤ n ∧ n ≤ 122 then some (n - 87)
    else if 65 ≤ n ∧ n ≤ 90 then some (n - 55)
    else none
  match v with
  | some d => if d < radix then some d else none
  | none => none

/-- The longest prefix of radix digits, as digit values. -/
def leadingDigits (radix : Nat) : List Char → List Nat
  | [] => []
  | c :: cs =>
    match digitOf radix c with
    | some d => d :: leadingDigits radix cs
    | none => []

/-- Removes one leading sign and reports it. -/
def stripSign : List Char → Int × List Char
  | '-' :: rest => (-1, rest)
  | '+' :: rest => (1, rest)
  | s => (1, s)

/-- Removes a leading `0x` or `0X` and reports the radix. -/
def stripHexMarker : List Char → Nat × List Char
  | '0' :: 'x' :: rest => (16, rest)
  | '0' :: 'X' :: rest => (16, rest)
  | s => (10, s)

/-- ECMAScript `parseInt (input)` with no radix argument; `none` is `NaN`.
The result is the exact integer: JavaScript rounds results above 2^53 to the
nearest double, which changes no comparison with `0` or `65535`. -/
def parseInt (input : String) : Option Int :=
  let s := input.toList.dropWhile isStrWhiteSpace
  let signed := stripSign s
  let prefixed := stripHexMarker signed.2
  let z := leadingDigits prefixed.1 prefixed.2
  if z.isEmpty then none
  else some (signed.1 * (z.foldl (fun acc d => acc * prefixed.1 + d) 0 : Nat))

/-- State of the UTF-8 decoder behind `Buffer.prototype.toString ()`
(the WHATWG decoder: code point so far, continuation bytes seen and needed,
and the bounds the next continuation byte must respect). -/
structure Utf8Decoder where
  codePoint : Nat
  bytesSeen : Nat
  bytesNeeded : Nat
  lower : Nat
  upper : Nat

/-- The decoder between two characters. -/
def Utf8Decoder.start : Utf8Decoder :=
  { codePoint := 0, bytesSeen := 0, bytesNeeded := 0, lower := 0x80, upper := 0xBF }

/-- U+FFFD, written for every ill-formed byte sequence. -/
def replacementChar : Char := Char.ofNat 0xFFFD

/-- A byte read between two characters: an ASCII byte is a character, a lead
byte opens a sequence, anything else is ill-formed. -/
def utf8Lead (b : Nat) : Utf8Decoder × List Char :=
  if b ≤ 0x7F then (Utf8Decoder.start, [Char.ofNat b])
  else if 0xC2 ≤ b ∧ b ≤ 0xDF then
    ({ codePoint := b % 32, bytesSeen := 0, bytesNeeded := 1, lower := 0x80, upper := 0xBF }, [])
  else if 0xE0 ≤ b ∧ b ≤ 0xEF then
    ({ codePoint := b % 16, bytesSeen := 0, bytesNeeded := 2,
       lower := if b = 0xE0 then 0xA0 else 0x80,
       upper := if b = 0xED then 0x9F else 0xBF }, [])
  else if 0xF0 ≤ b ∧ b ≤ 0xF4 then
    ({ codePoint := b % 8, bytesSeen := 0, bytesNeeded := 3,
       lower := if b = 0xF0 then 0x90 else 0x80,
       upper := if b = 0xF4 then 0x8F else 0xBF }, [])
  else (Utf8Decoder.start, [replacementChar])

/-- One byte through the decoder.  A byte that cannot continue the open
sequence ends it with U+FFFD and is then read again as a first byte. -/
def utf8Step (st : Utf8Decoder) (b : Nat) : Utf8Decoder × List Char :=
  if st.bytesNeeded = 0 then utf8Lead b
  else if b < st.lower ∨ st.upper < b then
    ((utf8Lead b).1, replacementChar :: (utf8Lead b).2)
  else if st.bytesSeen + 1 = st.bytesNeeded then
    (Utf8Decoder.start, [Char.ofNat (st.codePoint * 64 + b % 64)])
  else
    ({ codePoint := st.codePoint * 64 + b % 64, bytesSeen := st.bytesSeen + 1,
       bytesNeeded := st.bytesNeeded, lower := 0x80, upper := 0xBF }, [])

/-- Decodes the rest of a buffer; a sequence still open at the end of the
buffer is ill-formed. -/
def utf8DecodeFrom (st : Utf8Decoder) : List Nat → List Char
  | [] => if st.bytesNeeded = 0 then [] else [replacementChar]
  | b :: bs => (utf8Step st b).2 ++ utf8DecodeFrom (utf8Step st b).1 bs

/-- The call `buffer.toString ()`, also what `'' + buffer` evaluates: the
bytes decoded as UTF-8, each buffer on its own. -/
def bufferToString (bytes : List Nat) : String :=
  String.mk (utf8DecodeFrom Utf8Decoder.start bytes)

/-- UTF-8 encoding of one character. -/
def utf8EncodeChar (c : Char) : List Nat :=
  let n := c.toNat
  if n < 0x80 then [n]
  else if n < 0x800 then [0xC0 + n / 64, 0x80 + n % 64]
  else if n < 0x10000 then [0xE0 + n / 4096, 0x80 + n / 64 % 64, 0x80 + n % 64]
  else [0xF0 + n / 262144, 0x80 + n / 4096 % 64, 0x80 + n / 64 % 64, 0x80 + n % 64]

/-- The call `Buffer.from (string)`: the UTF-8 bytes of the string. -/
def bufferFrom (s : String) : List Nat :=
  (s.toList.map utf8EncodeChar).flatten

/-- The base64 digit of a 6-bit value. -/
def base64Char (v : Nat) : Char :=
  if v < 26 then Char.ofNat (65 + v)
  else if v < 52 then Char.ofNat (71 + v)
  else if v < 62 then Char.ofNat (v - 4)
  else if v = 62 then '+'
  else '/'

/-- The call `buffer.toString ('base64')`: standard alphabet, `=` padding. -/
def base64Encode : List Nat → List Char
  | [] => []
  | [a] => [base64Char (a / 4), base64Char (a % 4 * 16), '=', '=']
  | [a, b] =>
    [base64Char (a / 4), base64Char (a % 4 * 16 + b / 16), base64Char (b % 16 * 4), '=']
  | a :: b :: c :: rest =>
    base64Char (a / 4) :: base64Char (a % 4 * 16 + b / 16)
      :: base64Char (b % 16 * 4 + c / 64) :: base64Char (c % 64) :: base64Encode rest

/-- The 6-bit value of a base64 digit. -/
def base64Value (c : Char) : Option Nat :=
  let n := c.toNat
  if 65 ≤ n ∧ n ≤ 90 then some (n - 65)
  else if 97 ≤ n ∧ n ≤ 122 then some (n - 71)
  else if 48 ≤ n ∧ n ≤ 57 then some (n + 4)
  else if n = 43 then some 62
  else if n = 47 then some 63
  else none

/-- Base64 decoding, the reader's side of the `data` field: groups of four
digits, the last group possibly padded with `=`. -/
def base64Decode : List Char → Option (List Nat)
  | [] => some []
  | c0 :: c1 :: c2 :: c3 :: rest =>
    match base64Value c0, base64Value c1 with
    | some v0, some v1 =>
      if c2 = '=' ∧ c3 = '=' ∧ rest = [] then some [v0 * 4 + v1 / 16]
      else
        match base64Value c2 with
        | some v2 =>
          if c3 = '=' ∧ rest = [] then some [v0 * 4 + v1 / 16, v1 % 16 * 16 + v2 / 4]
          else
            match base64Value c3 with
            | some v3 =>
              (base64Decode rest).map fun t =>
                (v0 * 4 + v1 / 16) :: (v1 % 16 * 16 + v2 / 4) :: (v2 % 4 * 64 + v3) :: t
            | none => none
        | none => none
    | _, _ => none
  | _ => none

/-! ## `bin/cli.js`: the prompt validators -/

/-- Result of an inquirer `validate` callback: `true`, or a message string
that makes the prompt ask again. -/
inductive Validation where
  | accept : Validation
  | reject (message : String) : Validation
  deriving DecidableEq, Repr

/-- The `validate` callback of the `localPort` prompt. -/
def validateLocalPort (input : String) : Validation :=
  match parseInt input with
  | none => Validation.reject "Please enter a valid port number (1-65535)"
  | some port =>
    if port ≤ 0 ∨ port > 65535 then
      Validation.reject "Please enter a valid port number (1-65535)"
    else Validation.accept

/-- The character class `[a-z0-9-]`. -/
def isSubdomainChar (c : Char) : Bool :=
  let n := c.toNat
  (97 ≤ n && n ≤ 122) || (48 ≤ n && n ≤ 57) || n == 45

/-- The test `/^[a-z0-9-]+$/.test (input)`: without the `m` flag `^` and `$`
match only at the two ends of the input. -/
def subdomainRegexTest (input : String) : Bool :=
  !input.toList.isEmpty && input.toList.all isSubdomainChar

/-- The `validate` callback of the `subdomain` prompt. -/
def validateSubdomain (input : String) : Validation :=
  if input ≠ "" ∧ subdomainRegexTest input = false then
    Validation.reject "Subdomain can only contain lowercase letters, numbers, and hyphens"
  else Validation.accept

/-- The `validate` callback of the `serverIp` prompt. -/
def validateServerIp (input : String) : Validation :=
  if input = "" then Validation.reject "Server IP/domain is required"
  else Validation.accept

/-- The `validate` callback of the `serverPort` prompt. -/
def validateServerPort (input : String) : Validation :=
  match parseInt input with
  | none => Validation.reject "Please enter a valid port number (1-65535)"
  | some port =>
    if port ≤ 0 ∨ port > 65535 then
      Validation.reject "Please enter a valid port number (1-65535)"
    else Validation.accept

/-- Template-literal rendering of a number: `NaN`, or the decimal digits of
an integer. -/
def numberToString : Option Int → String
  | some n => toString n
  | none => "NaN"

/-- The expression `a || b` on a possibly-absent string and a string: the
left operand when it is truthy (present and not empty). -/
def orElse (a : Option String) (b : String) : String :=
  match a with
  | some s => if s = "" then b else s
  | none => b

/-- The comparison `value === text` against a string literal. -/
def strictEqualsString (value : Option Json) (text : String) : Bool :=
  match value with
  | some (Json.str s) => s == text
  | _ => false

/-! ## `src/tunnelManager.js`: data -/

/-- An `Error` object: its `message` and its `code` (absent on errors that
carry none). -/
structure JsError where
  message : String
  code : Option String

/-- The configuration object handed to `addTunnel`: the four answers of
`promptForServerDetails`.  `subdomain` may be absent. -/
structure TunnelConfig where
  localPort : String
  subdomain : Option String
  serverIp : String
  serverPort : String

/-- The fields of a `Tunnel` instance.  `localServer` is `null` or a server
bound to a port, `ws` is `null` or a WebSocket opened on a URL, and
`errorListeners` counts the `'error'` listeners of the emitter. -/
structure Tunnel where
  config : TunnelConfig
  id : String
  localServer : Option Nat
  ws : Option String
  targetPort : Option Int
  errorListeners : Nat

/-- The `options` object handed to `http.request`. -/
structure RequestOptions where
  hostname : String
  port : Option Int
  path : Option Json
  method : Option Json
  headers : List (String × Json)

/-- What a handler does to the outside, in order.  Console output is not
recorded. -/
inductive Effect where
  /-- The call `this.ws.send (JSON.stringify (frame))`. -/
  | wsSend (frame : Json) : Effect
  /-- The calls `http.request (options, ...)`, `write (body)` when a body is
  written, and `end ()`. -/
  | httpRequest (options : RequestOptions) (body : Option Json) : Effect
  /-- The call `this.emit ('error', error)` reaching the registered listeners. -/
  | emitError (error : JsError) : Effect
  /-- The call `resolve ()` of the connection promise. -/
  | resolve : Effect
  /-- The call `reject (error)` of the connection promise. -/
  | reject (error : JsError) : Effect
  /-- An exception leaving the handler. -/
  | throw (error : JsError) : Effect
  /-- The call `this.ws.close ()`. -/
  | wsClose (url : String) : Effect
  /-- The call `this.localServer.close (...)`. -/
  | serverClose (port : Nat) : Effect
  /-- The call `res.writeHead (statusCode, headers)` on the ingress response. -/
  | writeHead (statusCode : Int) (headers : Json) : Effect
  /-- The call `res.write (chunk)` on the ingress response. -/
  | write (chunk : List Nat) : Effect
  /-- The call `res.end (body)` on the ingress response. -/
  | endResponse (body : Option Json) : Effect

/-- The frames sent on the control channel, in order. -/
def sentFrames : List Effect → List Json
  | [] => []
  | Effect.wsSend frame :: rest => frame :: sentFrames rest
  | _ :: rest => sentFrames rest

/-- The requests issued to the local target, in order. -/
def forwardedRequests : List Effect → List (RequestOptions × Option Json)
  | [] => []
  | Effect.httpRequest options body :: rest => (options, body) :: forwardedRequests rest
  | _ :: rest => forwardedRequests rest

/-- The `'error'` emissions delivered to the owner, in order. -/
def surfacedErrors : List Effect → List JsError
  | [] => []
  | Effect.emitError e :: rest => e :: surfacedErrors rest
  | _ :: rest => surfacedErrors rest

/-- The exceptions that left a handler, in order. -/
def escapedErrors : List Effect → List JsError
  | [] => []
  | Effect.throw e :: rest => e :: escapedErrors rest
  | _ :: rest => escapedErrors rest

/-- Events of one `http.request` to the local target. -/
inductive HttpEvent where
  /-- The response callback, with `res.statusCode` and `res.headers`. -/
  | response (statusCode : Int) (headers : Json) : HttpEvent
  /-- Event `'data'` of the response, with the chunk's bytes. -/
  | data (chunk : List Nat) : HttpEvent
  /-- Event `'end'` of the response. -/
  | finish : HttpEvent
  /-- Event `'error'` of the request. -/
  | error (error : JsError) : HttpEvent

/-- Events of the WebSocket that end a connection. -/
inductive TransportEvent where
  | error (error : JsError) : TransportEvent
  | close : TransportEvent

/-! ## `src/tunnelManager.js`: class `Tunnel` -/

/-- The constructor of `Tunnel`. -/
def Tunnel.constructor (config : TunnelConfig) (id : String) : Tunnel :=
  { config := config, id := id, localServer := none, ws := none,
    targetPort := parseInt config.localPort, errorListeners := 0 }

/-- The call `this.emit ('error', error)`: an emitter without an `'error'`
listener throws the error instead. -/
def Tunnel.emit (t : Tunnel) (error : JsError) : List Effect :=
  if t.errorListeners = 0 then [Effect.throw error] else [Effect.emitError error]

/-- The closure of one `handleTunnelRequest` call: the `clientId` of the
envelope, the tunnel's target port, the response once its callback ran, and
the `responseBody` accumulated so far. -/
structure TunnelForward where
  clientId : Option Json
  targetPort : Option Int
  res : Option (Int × Json)
  responseBody : String

/-- The callbacks `handleTunnelRequest` registers on its request. -/
def TunnelForward.onEvent (f : TunnelForward) : HttpEvent → TunnelForward × List Effect
  | HttpEvent.response statusCode headers =>
    ({ f with res := some (statusCode, headers), responseBody := "" }, [])
  | HttpEvent.data chunk =>
    match f.res with
    | some _ => ({ f with responseBody := f.responseBody ++ bufferToString chunk }, [])
    | none => (f, [])
  | HttpEvent.finish =>
    match f.res with
    | some (statusCode, headers) =>
      (f, [Effect.wsSend (Json.obj
        ([("type", Json.str "response")] ++ optionalField "clientId" f.clientId ++
         [("statusCode", Json.num statusCode), ("headers", headers),
          ("data", Json.str (String.mk (base64Encode (bufferFrom f.responseBody))))]))])
    | none => (f, [])
  | HttpEvent.error error =>
    (f, [Effect.wsSend (Json.obj
      ([("type", Json.str "error")] ++ optionalField "clientId" f.clientId ++
       [("error", Json.str error.message),
        ("details", Json.obj
          ([("targetPort", numberField f.targetPort)] ++
            optionalField "error" (error.code.map Json.str)))]))])

/-- The callbacks run over the events of one request, in order. -/
def TunnelForward.run (f : TunnelForward) : List HttpEvent → TunnelForward × List Effect
  | [] => (f, [])
  | ev :: rest =>
    ((TunnelForward.run (f.onEvent ev).1 rest).1,
     (f.onEvent ev).2 ++ (TunnelForward.run (f.onEvent ev).1 rest).2)

/-- The body of `handleTunnelRequest` up to `req.end ()`: the request it
issues and the closure its callbacks share.  Argument checks made by Node
inside `http.request` and `req.write` are not modelled. -/
def Tunnel.handleTunnelRequest (t : Tunnel) (message : Json) : TunnelForward × List Effect :=
  let options : RequestOptions :=
    { hostname := "localhost",
      port := t.targetPort,
      path := message.get "path",
      method := message.get "method",
      headers := setProp "host" (Json.str ("localhost:" ++ numberToString t.targetPort))
        (spreadProps (message.get "headers")) }
  let body := message.get "body"
  ({ clientId := message.get "clientId", targetPort := t.targetPort, res := none,
     responseBody := "" },
   [Effect.httpRequest options (if truthy body then body else none)])

/-- A request accepted by the local ingress server: `req.method`, `req.url`,
`req.headers` and the chunks of its body. -/
structure LocalRequest where
  method : String
  url : String
  headers : List (String × Json)
  chunks : List (List Nat)

/-- The `body` string `handleLocalRequest` accumulates from the chunks. -/
def accumulateBody : List (List Nat) → String
  | [] => ""
  | chunk :: rest => bufferToString chunk ++ accumulateBody rest

/-- The closure of one `handleLocalRequest` call. -/
structure LocalForward where
  targetPort : Option Int

/-- The callbacks `handleLocalRequest` registers on its request. -/
def LocalForward.onEvent (f : LocalForward) : HttpEvent → List Effect
  | HttpEvent.response statusCode headers => [Effect.writeHead statusCode headers]
  | HttpEvent.data chunk => [Effect.write chunk]
  | HttpEvent.finish => [Effect.endResponse none]
  | HttpEvent.error error =>
    [Effect.writeHead 502 (Json.obj [("Content-Type", Json.str "application/json")]),
     Effect.endResponse (some (Json.obj
       [("error", Json.str "Error forwarding request"),
        ("details", Json.str error.message),
        ("targetPort", numberField f.targetPort)]))]

/-- The callbacks run over the events of one request, in order. -/
def LocalForward.run (f : LocalForward) : List HttpEvent → List Effect
  | [] => []
  | ev :: rest => f.onEvent ev ++ LocalForward.run f rest

/-- The body of `handleLocalRequest` once the request's `'end'` event fired:
the request it issues and the closure its callbacks share. -/
def Tunnel.handleLocalRequest (t : Tunnel) (req : LocalRequest) : LocalForward × List Effect :=
  let body := accumulateBody req.chunks
  let options : RequestOptions :=
    { hostname := "localhost",
      port := t.targetPort,
      path := some (Json.str req.url),
      method := some (Json.str req.method),
      headers := setProp "host" (Json.str ("localhost:" ++ numberToString t.targetPort))
        req.headers }
  ({ targetPort := t.targetPort },
   [Effect.httpRequest options (if body ≠ "" then some (Json.str body) else none)])

/-- The URL `connectToTunnelServer` opens the WebSocket on. -/
def Tunnel.wsUrl (t : Tunnel) : String :=
  "wss://" ++ t.config.serverIp ++ ":" ++ t.config.serverPort

/-- The `'open'` handler of `connectToTunnelServer`.  Reading the address of a
`null` server throws. -/
def Tunnel.onOpen (t : Tunnel) : List Effect :=
  match t.localServer with
  | some port =>
    [Effect.wsSend (Json.obj
      [("type", Json.str "register"),
       ("subdomain", Json.str (orElse t.config.subdomain t.id)),
       ("port", Json.num port)]),
     Effect.resolve]
  | none => [Effect.throw { message := "Cannot read properties of null", code := none }]

/-- The read `message.type` inside the `'message'` handler: it throws a
`TypeError` on `null`. -/
def readType : Json → Except JsError (Option Json)
  | Json.null => Except.error { message := "Cannot read properties of null", code := none }
  | message => Except.ok (message.get "type")

/-- The `'message'` handler of `connectToTunnelServer`, over the result of
`JSON.parse` on the frame's text.  Everything thrown inside `try` is caught. -/
def Tunnel.onMessage (jsonParse : String → Except JsError Json) (t : Tunnel) (data : String) :
    Tunnel × List Effect :=
  let attempt : Except JsError (List Effect) :=
    match jsonParse data with
    | Except.error e => Except.error e
    | Except.ok message =>
      match readType message with
      | Except.error e => Except.error e
      | Except.ok type =>
        if strictEqualsString type "request" then Except.ok (t.handleTunnelRequest message).2
        else Except.ok []
  match attempt with
  | Except.ok effects => (t, effects)
  | Except.error _ => (t, [])

/-- The `'error'` handler of `connectToTunnelServer`: `reject` is reached only
when `emit` returned. -/
def Tunnel.onError (t : Tunnel) (error : JsError) : List Effect :=
  if t.errorListeners = 0 then t.emit error else t.emit error ++ [Effect.reject error]

/-- The `'close'` handler of `connectToTunnelServer`. -/
def Tunnel.onClose (t : Tunnel) : List Effect :=
  t.emit { message := "WebSocket connection closed", code := none }

/-- The handlers of `'error'` and `'close'` over one transport event. -/
def Tunnel.onTransportEvent (t : Tunnel) : TransportEvent → List Effect
  | TransportEvent.error e => t.onError e
  | TransportEvent.close => t.onClose

/-- The handlers over the transport events of one connection, in order. -/
def Tunnel.onTransportEvents (t : Tunnel) : List TransportEvent → List Effect
  | [] => []
  | ev :: rest => t.onTransportEvent ev ++ Tunnel.onTransportEvents t rest

/-- How the connection attempt of `start` ends. -/
inductive ConnectOutcome where
  | opened : ConnectOutcome
  | failed (error : JsError) : ConnectOutcome

/-- The method `start`: the ingress server is bound to the port the system
assigned (`listen (0, 'localhost')`, taken to succeed), the WebSocket is
created on `wsUrl`, and its first event, `'open'` or `'error'`, is handled. -/
def Tunnel.start (t : Tunnel) (boundPort : Nat) (outcome : ConnectOutcome) :
    Tunnel × List Effect :=
  let listening : Tunnel := { t with localServer := some boundPort }
  let connecting : Tunnel := { listening with ws := some listening.wsUrl }
  match outcome with
  | ConnectOutcome.opened => (connecting, connecting.onOpen)
  | ConnectOutcome.failed e => (connecting, connecting.onError e)

/-- The method `stop`. -/
def Tunnel.stop (t : Tunnel) : List Effect :=
  (match t.ws with
    | some url => [Effect.wsClose url]
    | none => []) ++
  (match t.localServer with
    | some port => [Effect.serverClose port]
    | none => [])

/-! ## `src/tunnelManager.js`: class `TunnelManager` -/

/-- The registry: the `Map` held in `this.tunnels`, as its entries in
insertion order. -/
structure TunnelManager where
  tunnels : List (String × Tunnel)

/-- The method `Map.prototype.get`. -/
def mapGet (key : String) : List (String × Tunnel) → Option Tunnel
  | [] => none
  | (k, v) :: rest => if k = key then some v else mapGet key rest

/-- The method `Map.prototype.set`: an existing key keeps its position. -/
def mapSet (key : String) (v : Tunnel) : List (String × Tunnel) → List (String × Tunnel)
  | [] => [(key, v)]
  | (k, w) :: rest => if k = key then (k, v) :: rest else (k, w) :: mapSet key v rest

/-- The method `Map.prototype.delete`. -/
def mapDelete (key : String) : List (String × Tunnel) → List (String × Tunnel)
  | [] => []
  | (k, v) :: rest => if k = key then mapDelete key rest else (k, v) :: mapDelete key rest

/-- The constructor of `TunnelManager`. -/
def TunnelManager.constructor : TunnelManager := { tunnels := [] }

/-- The object `addTunnel` returns. -/
structure TunnelInfo where
  id : String
  localPort : String
  serverPort : String
  serverIp : String
  subdomain : String

/-- One element of the array `listTunnels` returns: `{ id, ...tunnel.config }`. -/
structure TunnelEntry where
  id : String
  localPort : String
  subdomain : Option String
  serverIp : String
  serverPort : String
  deriving DecidableEq, Repr

/-- The method `stopTunnel`. -/
def TunnelManager.stopTunnel (m : TunnelManager) (tunnelId : String) :
    TunnelManager × List Effect :=
  match mapGet tunnelId m.tunnels with
  | some tunnel => ({ tunnels := mapDelete tunnelId m.tunnels }, tunnel.stop)
  | none => (m, [])

/-- The method `listTunnels`. -/
def TunnelManager.listTunnels (m : TunnelManager) : List TunnelEntry :=
  m.tunnels.map fun entry =>
    { id := entry.1,
      localPort := entry.2.config.localPort,
      subdomain := entry.2.config.subdomain,
      serverIp := entry.2.config.serverIp,
      serverPort := entry.2.config.serverPort }

/-- Whether the connection promise was resolved. -/
def resolved : List Effect → Bool
  | [] => false
  | Effect.resolve :: _ => true
  | _ :: rest => resolved rest

/-- The method `addTunnel`, given the identifier drawn from `Math.random`, the
port the system assigned to the ingress server and the way the connection
attempt ended.  When `start` does not resolve nothing is registered and
nothing is returned. -/
def TunnelManager.addTunnel (m : TunnelManager) (config : TunnelConfig) (tunnelId : String)
    (boundPort : Nat) (outcome : ConnectOutcome) :
    TunnelManager × Option TunnelInfo × List Effect :=
  let started := (Tunnel.constructor config tunnelId).start boundPort outcome
  if resolved started.2 then
    let tunnel : Tunnel := { started.1 with errorListeners := started.1.errorListeners + 1 }
    ({ tunnels := mapSet tunnelId tunnel m.tunnels },
     some { id := tunnelId,
            localPort := config.localPort,
            serverPort := config.serverPort,
            serverIp := config.serverIp,
            subdomain := orElse config.subdomain tunnelId },
     started.2)
  else (m, none, started.2)

/-- The `'error'` listener `addTunnel` registers on the tunnel. -/
def TunnelManager.onTunnelError (m : TunnelManager) (tunnelId : String) (_error : JsError) :
    TunnelManager × List Effect :=
  m.stopTunnel tunnelId

/-! ## Notions of the specification -/

/-- The input denotes an integer in [1, 65535]: it is a non-empty string of
decimal digits whose value lies in that range. -/
def denotesPort (input : String) : Bool :=
  !input.toList.isEmpty && input.toList.all (fun c => 48 ≤ c.toNat && c.toNat ≤ 57)
    && 1 ≤ input.toList.foldl (fun acc c => acc * 10 + (c.toNat - 48)) 0
    && input.toList.foldl (fun acc c => acc * 10 + (c.toNat - 48)) 0 ≤ 65535

/-- A spelling of the header name `Host`: equal to `host` up to letter case. -/
def isHostSpelling (name : String) : Bool :=
  name.toList.map Char.toLower == ['h', 'o', 's', 't']

/-- The Host header is rewritten, in the words of the specification: the
outbound headers carry `host` with the value `localhost:p`, reading any
spelling of `Host` gives no other value, and every other header reads as it
did inbound. -/
def HostRewritten (p : Int) (inbound outbound : List (String × Json)) : Prop :=
  lookupProp "host" outbound = some (Json.str ("localhost:" ++ toString p)) ∧
  (∀ name value, isHostSpelling name = true → lookupProp name outbound = some value →
    value = Json.str ("localhost:" ++ toString p)) ∧
  (∀ name, isHostSpelling name = false → lookupProp name outbound = lookupProp name inbound)

/-! ## Concrete inputs used by the closed statements -/

/-- A configuration as the prompts produce it with their defaults. -/
def sampleConfig : TunnelConfig :=
  { localPort := "4000", subdomain := some "demo", serverIp := "dfanso.dev", serverPort := "8080" }

/-- The tunnel `addTunnel` registers for `sampleConfig`, once started. -/
def sampleTunnel : Tunnel :=
  { config := sampleConfig, id := "k3x9a", localServer := some 51234,
    ws := some "wss://dfanso.dev:8080", targetPort := some 4000, errorListeners := 1 }

/-- A second tracked tunnel, without a sub-domain of its own. -/
def otherTunnel : Tunnel :=
  { config := { localPort := "3000", subdomain := none, serverIp := "dfanso.dev",
                serverPort := "8080" },
    id := "p0q1r", localServer := some 51235, ws := some "wss://dfanso.dev:8080",
    targetPort := some 3000, errorListeners := 1 }

/-- A registry tracking the two sample tunnels. -/
def sampleManager : TunnelManager :=
  { tunnels := [("k3x9a", sampleTunnel), ("p0q1r", otherTunnel)] }

/-- The error Node reports when nothing listens on the target port. -/
def connectionRefused : JsError :=
  { message := "connect ECONNREFUSED 127.0.0.1:4000", code := some "ECONNREFUSED" }

/-- The error a transport event is surfaced as: the error itself, or the
error the `'close'` handler creates. -/
def TransportEvent.surfacedAs : TransportEvent → JsError
  | TransportEvent.error e => e
  | TransportEvent.close => { message := "WebSocket connection closed", code := none }

/-- A request envelope as the relay sends it in scenario A. -/
def healthRequest : Json :=
  Json.obj [("type", Json.str "request"), ("clientId", Json.str "c1"),
            ("method", Json.str "GET"), ("path", Json.str "/health")]

/-- A request envelope whose headers spell the Host header twice, as `host`
and as `Host`. -/
def twoHostsRequest : Json :=
  Json.obj [("type", Json.str "request"), ("clientId", Json.str "c1"),
            ("method", Json.str "GET"), ("path", Json.str "/health"),
            ("headers", Json.obj [("host", Json.str "demo.dfanso.dev"),
                                  ("Host", Json.str "demo.dfanso.dev"),
                                  ("accept", Json.str "*/*")])]

/-- A request envelope with lower-case header names, as Node produces them. -/
def lowerCaseRequest : Json :=
  Json.obj [("type", Json.str "request"), ("clientId", Json.str "c1"),
            ("method", Json.str "GET"), ("path", Json.str "/health"),
            ("headers", Json.obj [("host", Json.str "demo.dfanso.dev"),
                                  ("accept", Json.str "*/*")])]

/-- A request accepted by the ingress server on port 51234. -/
def echoRequest : LocalRequest :=
  { method := "POST", url := "/echo", headers := [("host", Json.str "localhost:51234")],
    chunks := [[104, 105]] }

/-! ## Facts about the modelled built-ins -/

theorem base64Value_base64Char : ∀ v, v < 64 → base64Value (base64Char v) = some v := by
  decide

theorem base64Char_ne_pad : ∀ v, v < 64 → base64Char v ≠ '=' := by
  decide

theorem base64Decode_base64Encode (bytes : List Nat) (hbytes : ∀ b ∈ bytes, b < 256) :
    base64Decode (base64Encode bytes) = some bytes := by
  induction bytes using base64Encode.induct with
  | case1 => rfl
  | case2 a =>
    have ha : a < 256 := hbytes a (by simp)
    have h0 := base64Value_base64Char (a / 4) (by omega)
    have h1 := base64Value_base64Char (a % 4 * 16) (by omega)
    simp only [base64Encode, base64Decode, h0, h1]
    simp
    omega
  | case3 a b =>
    have ha : a < 256 := hbytes a (by simp)
    have hb : b < 256 := hbytes b (by simp)
    have h0 := base64Value_base64Char (a / 4) (by omega)
    have h1 := base64Value_base64Char (a % 4 * 16 + b / 16) (by omega)
    have h2 := base64Value_base64Char (b % 16 * 4) (by omega)
    have hpad := base64Char_ne_pad (b % 16 * 4) (by omega)
    simp only [base64Encode, base64Decode, h0, h1, h2]
    simp [hpad]
    omega
  | case4 a b c rest ih =>
    have ha : a < 256 := hbytes a (by simp)
    have hb : b < 256 := hbytes b (by simp)
    have hc : c < 256 := hbytes c (by simp)
    have hrest := ih (fun x hx => hbytes x (by simp [hx]))
    have h0 := base64Value_base64Char (a / 4) (by omega)
    have h1 := base64Value_base64Char (a % 4 * 16 + b / 16) (by omega)
    have h2 := base64Value_base64Char (b % 16 * 4 + c / 64) (by omega)
    have h3 := base64Value_base64Char (c % 64) (by omega)
    have hpad2 := base64Char_ne_pad (b % 16 * 4 + c / 64) (by omega)
    have hpad3 := base64Char_ne_pad (c % 64) (by omega)
    simp only [base64Encode, base64Decode, h0, h1, h2, h3, hrest]
    simp [hpad2, hpad3]
    omega


theorem toNat_ofNat_ascii : ∀ b, b < 128 → (Char.ofNat b).toNat = b := by
  decide

theorem utf8DecodeFrom_ascii (bytes : List Nat) (h : ∀ b ∈ bytes, b < 128) :
    utf8DecodeFrom Utf8Decoder.start bytes = bytes.map Char.ofNat := by
  induction bytes with
  | nil => rfl
  | cons b rest ih =>
    have hb : b ≤ 127 := by
      have := h b (by simp)
      omega
    have hstep : utf8Step Utf8Decoder.start b = (Utf8Decoder.start, [Char.ofNat b]) := by
      simp [utf8Step, utf8Lead, Utf8Decoder.start, hb]
    simp only [utf8DecodeFrom, hstep, List.map_cons, List.singleton_append]
    rw [ih (fun x hx => h x (by simp [hx]))]

theorem bufferFrom_ascii (bytes : List Nat) (h : ∀ b ∈ bytes, b < 128) :
    bufferFrom (String.mk (bytes.map Char.ofNat)) = bytes := by
  induction bytes with
  | nil => rfl
  | cons b rest ih =>
    have hb := h b (by simp)
    have hrest := ih (fun x hx => h x (by simp [hx]))
    simp only [bufferFrom, String.toList] at hrest ⊢
    simp only [List.map_cons, List.flatten_cons, hrest]
    simp [utf8EncodeChar, toNat_ofNat_ascii b hb, hb]

theorem accumulateBody_ascii (chunks : List (List Nat))
    (h : ∀ chunk ∈ chunks, ∀ b ∈ chunk, b < 128) :
    accumulateBody chunks = String.mk (chunks.flatten.map Char.ofNat) := by
  induction chunks with
  | nil => rfl
  | cons chunk rest ih =>
    rw [accumulateBody, ih (fun c hc => h c (by simp [hc])), bufferToString,
      utf8DecodeFrom_ascii chunk (h chunk (by simp))]
    simp [String.ext_iff]

theorem ascii_body_round_trip (chunks : List (List Nat))
    (h : ∀ chunk ∈ chunks, ∀ b ∈ chunk, b < 128) :
    base64Decode (base64Encode (bufferFrom (accumulateBody chunks))) = some chunks.flatten := by
  have hflat : ∀ b ∈ chunks.flatten, b < 128 := by
    intro b hb
    obtain ⟨chunk, hchunk, hmem⟩ := List.mem_flatten.mp hb
    exact h chunk hchunk b hmem
  rw [accumulateBody_ascii chunks h, bufferFrom_ascii _ hflat]
  exact base64Decode_base64Encode _ (fun b hb => by have := hflat b hb; omega)

/-! ## The session registry -/

theorem sampleManager_is_reachable :
    ((TunnelManager.constructor.addTunnel sampleConfig "k3x9a" 51234
        ConnectOutcome.opened).1.addTunnel otherTunnel.config "p0q1r" 51235
        ConnectOutcome.opened).1 = sampleManager := by
  rfl

theorem mapGet_mapDelete_of_ne (key other : String) (h : other ≠ key)
    (l : List (String × Tunnel)) : mapGet other (mapDelete key l) = mapGet other l := by
  induction l with
  | nil => rfl
  | cons entry rest ih =>
    obtain ⟨k, v⟩ := entry
    by_cases hk : k = key
    · have hko : ¬ k = other := fun hko => h (hko.symm.trans hk)
      simp only [mapDelete, mapGet, if_pos hk, if_neg hko, ih]
    · by_cases hko : k = other
      · simp only [mapDelete, mapGet, if_neg hk, if_pos hko]
      · simp only [mapDelete, mapGet, if_neg hk, if_neg hko, ih]

theorem listTunnels_mapDelete (key : String) (l : List (String × Tunnel)) :
    TunnelManager.listTunnels { tunnels := mapDelete key l } =
      (TunnelManager.listTunnels { tunnels := l }).filter (fun e => e.id ≠ key) := by
  induction l with
  | nil => rfl
  | cons entry rest ih =>
    obtain ⟨k, v⟩ := entry
    simp only [TunnelManager.listTunnels] at ih
    by_cases hk : k = key
    · simp [mapDelete, TunnelManager.listTunnels, hk, ih]
    · simp [mapDelete, TunnelManager.listTunnels, hk, ih]

/-- C10: `stopTunnel (id)` on a tracked id stops that session and removes it,
so that `listTunnels` loses exactly the entries with that id and every other
id is tracked as before; on an untracked id it changes nothing and stops
nothing. -/
theorem stopTunnel_removes_exactly_that_session (m : TunnelManager) (tunnelId : String) :
    (∀ tunnel, mapGet tunnelId m.tunnels = some tunnel →
      (m.stopTunnel tunnelId).2 = tunnel.stop ∧
      (m.stopTunnel tunnelId).1.listTunnels =
        m.listTunnels.filter (fun e => e.id ≠ tunnelId) ∧
      (∀ e ∈ (m.stopTunnel tunnelId).1.listTunnels, e.id ≠ tunnelId) ∧
      (∀ other, other ≠ tunnelId →
        mapGet other (m.stopTunnel tunnelId).1.tunnels = mapGet other m.tunnels)) ∧
    (mapGet tunnelId m.tunnels = none → m.stopTunnel tunnelId = (m, [])) := by
  constructor
  · intro tunnel htracked
    have hstop : m.stopTunnel tunnelId =
        ({ tunnels := mapDelete tunnelId m.tunnels }, tunnel.stop) := by
      simp [TunnelManager.stopTunnel, htracked]
    rw [hstop]
    refine ⟨rfl, listTunnels_mapDelete tunnelId m.tunnels, ?_, ?_⟩
    · intro e he
      have he2 : e ∈ (TunnelManager.listTunnels { tunnels := m.tunnels }).filter
          (fun e => e.id ≠ tunnelId) := by
        rw [← listTunnels_mapDelete]; exact he
      simpa using (List.mem_filter.mp he2).2
    · intro other hne
      exact mapGet_mapDelete_of_ne tunnelId other hne m.tunnels
  · intro huntracked
    simp [TunnelManager.stopTunnel, huntracked]

/-- C10 at a registry of two sessions: stopping the first leaves the list with
the second entry only and closes the first session's socket and server. -/
theorem stopTunnel_removes_exactly_that_session_witness :
    (sampleManager.stopTunnel "k3x9a").2 =
        [Effect.wsClose "wss://dfanso.dev:8080", Effect.serverClose 51234] ∧
      (sampleManager.stopTunnel "k3x9a").1.listTunnels =
        [{ id := "p0q1r", localPort := "3000", subdomain := none, serverIp := "dfanso.dev",
           serverPort := "8080" }] ∧
      sampleManager.stopTunnel "zzzzz" = (sampleManager, []) :=
  ⟨((stopTunnel_removes_exactly_that_session sampleManager "k3x9a").1 sampleTunnel rfl).1,
   ((stopTunnel_removes_exactly_that_session sampleManager "k3x9a").1 sampleTunnel rfl).2.1,
   (stopTunnel_removes_exactly_that_session sampleManager "zzzzz").2 rfl⟩

/-! ## Registration -/

/-- C7: the `'open'` handler of a started tunnel sends exactly one frame, the
registration `{ type: "register", subdomain, port }`, whose sub-domain is the
configured one when present and not empty and the session id otherwise, and
whose port is the ingress server's bound port; `addTunnel` returns that same
sub-domain. -/
theorem open_sends_one_registration (m : TunnelManager) (config : TunnelConfig)
    (tunnelId : String) (boundPort : Nat) :
    ∃ subdomain : String,
      sentFrames ((Tunnel.constructor config tunnelId).start boundPort
          ConnectOutcome.opened).1.onOpen =
        [Json.obj [("type", Json.str "register"), ("subdomain", Json.str subdomain),
                   ("port", Json.num boundPort)]] ∧
      sentFrames (m.addTunnel config tunnelId boundPort ConnectOutcome.opened).2.2 =
        [Json.obj [("type", Json.str "register"), ("subdomain", Json.str subdomain),
                   ("port", Json.num boundPort)]] ∧
      (m.addTunnel config tunnelId boundPort ConnectOutcome.opened).2.1.map
          TunnelInfo.subdomain = some subdomain ∧
      (∀ s, config.subdomain = some s → s ≠ "" → subdomain = s) ∧
      (config.subdomain = none ∨ config.subdomain = some "" → subdomain = tunnelId) := by
  refine ⟨orElse config.subdomain tunnelId, rfl, ?_, ?_, ?_, ?_⟩
  · simp [TunnelManager.addTunnel, Tunnel.start, Tunnel.onOpen, Tunnel.constructor, resolved,
      sentFrames]
  · simp [TunnelManager.addTunnel, Tunnel.start, Tunnel.onOpen, Tunnel.constructor, resolved]
  · intro s hs hne
    simp [orElse, hs, hne]
  · intro h
    rcases h with h | h <;> simp [orElse, h]

/-! ## Transport failures -/

/-- C9, at an error followed by the close it causes: the tunnel surfaces two
`'error'` emissions to its owner, not at most one. -/
theorem error_then_close_surfaces_twice :
    ¬ (surfacedErrors (sampleTunnel.onTransportEvents
        [TransportEvent.error connectionRefused, TransportEvent.close])).length ≤ 1 := by
  decide

/-- C9 as amended: a tunnel whose owner has registered its `'error'` listener
surfaces one `'error'` emission for every transport event, in order, so the
failure is surfaced on the first event and again on each later one. -/
theorem every_transport_event_surfaces_once (t : Tunnel) (events : List TransportEvent)
    (howner : t.errorListeners ≠ 0) :
    surfacedErrors (t.onTransportEvents events) = events.map TransportEvent.surfacedAs ∧
      (surfacedErrors (t.onTransportEvents events)).length = events.length ∧
      escapedErrors (t.onTransportEvents events) = [] := by
  have hmain : surfacedErrors (t.onTransportEvents events) =
        events.map TransportEvent.surfacedAs ∧
      escapedErrors (t.onTransportEvents events) = [] := by
    induction events with
    | nil => exact ⟨rfl, rfl⟩
    | cons ev rest ih =>
      cases ev with
      | error e =>
        simp [Tunnel.onTransportEvents, Tunnel.onTransportEvent, Tunnel.onError, Tunnel.emit,
          howner, surfacedErrors, escapedErrors, TransportEvent.surfacedAs, ih.1, ih.2]
      | close =>
        simp [Tunnel.onTransportEvents, Tunnel.onTransportEvent, Tunnel.onClose, Tunnel.emit,
          howner, surfacedErrors, escapedErrors, TransportEvent.surfacedAs, ih.1, ih.2]
  refine ⟨hmain.1, ?_, hmain.2⟩
  rw [hmain.1, List.length_map]

/-- C9 as amended, at an error followed by a close on the sample tunnel. -/
theorem every_transport_event_surfaces_once_witness :
    sampleTunnel.errorListeners ≠ 0 ∧
      (surfacedErrors (sampleTunnel.onTransportEvents
        [TransportEvent.error connectionRefused, TransportEvent.close])).length = 2 :=
  ⟨by decide,
   (every_transport_event_surfaces_once sampleTunnel
     [TransportEvent.error connectionRefused, TransportEvent.close] (by decide)).2.1⟩

/-! ## The local ingress path -/

/-- C8, at a refused connection on the sample tunnel: the body written with
the 502 has a string under `details`, so `details.targetPort` is absent and
is not the target port 4000. -/
theorem local_error_body_has_no_details_targetPort :
    LocalForward.run (sampleTunnel.handleLocalRequest
        { method := "GET", url := "/health", headers := [], chunks := [] }).1
        [HttpEvent.error connectionRefused] =
      [Effect.writeHead 502 (Json.obj [("Content-Type", Json.str "application/json")]),
       Effect.endResponse (some (Json.obj
         [("error", Json.str "Error forwarding request"),
          ("details", Json.str "connect ECONNREFUSED 127.0.0.1:4000"),
          ("targetPort", Json.num 4000)]))] ∧
    ¬ ((Json.obj
         [("error", Json.str "Error forwarding request"),
          ("details", Json.str "connect ECONNREFUSED 127.0.0.1:4000"),
          ("targetPort", Json.num 4000)]).get "details").bind (Json.get "targetPort") =
        some (Json.num 4000) := by
  refine ⟨rfl, ?_⟩
  intro h
  have hnone : ((Json.obj
         [("error", Json.str "Error forwarding request"),
          ("details", Json.str "connect ECONNREFUSED 127.0.0.1:4000"),
          ("targetPort", Json.num 4000)]).get "details").bind (Json.get "targetPort") =
        none := rfl
  rw [hnone] at h
  exact Option.noConfusion h

/-- C8 as amended: when the forward of a local ingress request fails, the
handler answers with status 502 and the JSON body
`{ error, details, targetPort }`: `error` is the fixed text, `details` the
error's message, and the top-level `targetPort` the session's target port. -/
theorem local_forward_error_answers_502 (t : Tunnel) (req : LocalRequest) (e : JsError)
    (p : Int) (hport : t.targetPort = some p) :
    LocalForward.run (t.handleLocalRequest req).1 [HttpEvent.error e] =
      [Effect.writeHead 502 (Json.obj [("Content-Type", Json.str "application/json")]),
       Effect.endResponse (some (Json.obj
         [("error", Json.str "Error forwarding request"),
          ("details", Json.str e.message),
          ("targetPort", Json.num p)]))] := by
  simp [LocalForward.run, LocalForward.onEvent, Tunnel.handleLocalRequest, hport, numberField]

/-- C8 as amended, at a refused connection on the sample tunnel. -/
theorem local_forward_error_answers_502_witness :
    sampleTunnel.targetPort = some 4000 ∧
      LocalForward.run (sampleTunnel.handleLocalRequest
          { method := "POST", url := "/echo", headers := [], chunks := [[104, 105]] }).1
          [HttpEvent.error connectionRefused] =
        [Effect.writeHead 502 (Json.obj [("Content-Type", Json.str "application/json")]),
         Effect.endResponse (some (Json.obj
           [("error", Json.str "Error forwarding request"),
            ("details", Json.str connectionRefused.message),
            ("targetPort", Json.num 4000)]))] :=
  ⟨rfl, local_forward_error_answers_502 sampleTunnel _ connectionRefused 4000 rfl⟩

/-! ## The message handler -/

theorem strictEqualsString_iff (v : Option Json) (text : String) :
    strictEqualsString v text = true ↔ v = some (Json.str text) := by
  cases v with
  | none => simp [strictEqualsString]
  | some j => cases j <;> simp [strictEqualsString]

theorem onMessage_tunnel (jsonParse : String → Except JsError Json) (t : Tunnel)
    (data : String) : (t.onMessage jsonParse data).1 = t := by
  unfold Tunnel.onMessage
  dsimp only
  split <;> rfl

theorem onMessage_of_parse_error (jsonParse : String → Except JsError Json) (t : Tunnel)
    (data : String) (e : JsError) (h : jsonParse data = Except.error e) :
    (t.onMessage jsonParse data).2 = [] := by
  simp [Tunnel.onMessage, h]

theorem onMessage_of_request (jsonParse : String → Except JsError Json) (t : Tunnel)
    (data : String) (message : Json) (h : jsonParse data = Except.ok message)
    (htype : message.get "type" = some (Json.str "request")) :
    (t.onMessage jsonParse data).2 = (t.handleTunnelRequest message).2 := by
  have hread : readType message = Except.ok (message.get "type") := by
    cases message <;> first | rfl | simp [Json.get] at htype
  have heq : strictEqualsString (message.get "type") "request" = true :=
    (strictEqualsString_iff _ _).mpr htype
  simp [Tunnel.onMessage, h, hread, heq]

theorem onMessage_of_other (jsonParse : String → Except JsError Json) (t : Tunnel)
    (data : String) (message : Json) (h : jsonParse data = Except.ok message)
    (htype : message.get "type" ≠ some (Json.str "request")) :
    (t.onMessage jsonParse data).2 = [] := by
  have heq : strictEqualsString (message.get "type") "request" = false := by
    cases hs : strictEqualsString (message.get "type") "request" with
    | false => rfl
    | true => exact absurd ((strictEqualsString_iff _ _).mp hs) htype
  cases message <;> simp [Tunnel.onMessage, h, readType, heq]

theorem forwardedRequests_handleTunnelRequest (t : Tunnel) (message : Json) :
    (forwardedRequests (t.handleTunnelRequest message).2).length = 1 := rfl

/-- C5: the `'message'` handler calls `handleTunnelRequest` exactly when the
frame parses to a JSON value whose `type` is the string `"request"`.  On every
other frame (unparsable text, `null`, a value without `type`, another type
such as `"registered"`) it performs no effect at all: nothing is forwarded or
sent.  In every case no error leaves the handler and the tunnel is unchanged. -/
theorem message_handler_forwards_exactly_requests
    (jsonParse : String → Except JsError Json) (t : Tunnel) (data : String) :
    (t.onMessage jsonParse data).1 = t ∧
    escapedErrors (t.onMessage jsonParse data).2 = [] ∧
    (∀ message, jsonParse data = Except.ok message →
      message.get "type" = some (Json.str "request") →
        (t.onMessage jsonParse data).2 = (t.handleTunnelRequest message).2) ∧
    ((¬ ∃ message, jsonParse data = Except.ok message ∧
        message.get "type" = some (Json.str "request")) →
      (t.onMessage jsonParse data).2 = []) ∧
    (jsonParse data = Except.ok Json.null → (t.onMessage jsonParse data).2 = []) ∧
    (forwardedRequests (t.onMessage jsonParse data).2 ≠ [] ↔
      ∃ message, jsonParse data = Except.ok message ∧
        message.get "type" = some (Json.str "request")) := by
  have hignored : (¬ ∃ message, jsonParse data = Except.ok message ∧
        message.get "type" = some (Json.str "request")) →
      (t.onMessage jsonParse data).2 = [] := by
    intro hno
    cases hparse : jsonParse data with
    | error e => exact onMessage_of_parse_error jsonParse t data e hparse
    | ok message =>
      exact onMessage_of_other jsonParse t data message hparse
        (fun htype => hno ⟨message, hparse, htype⟩)
  refine ⟨onMessage_tunnel jsonParse t data, ?_, ?_, hignored, ?_, ?_⟩
  · by_cases hreq : ∃ message, jsonParse data = Except.ok message ∧
        message.get "type" = some (Json.str "request")
    · obtain ⟨message, hparse, htype⟩ := hreq
      rw [onMessage_of_request jsonParse t data message hparse htype]
      rfl
    · rw [hignored hreq]
      rfl
  · intro message hparse htype
    exact onMessage_of_request jsonParse t data message hparse htype
  · intro hnull
    exact onMessage_of_other jsonParse t data Json.null hnull (by simp [Json.get])
  · constructor
    · intro hforwarded
      by_contra hno
      exact hforwarded (by rw [hignored hno]; rfl)
    · rintro ⟨message, hparse, htype⟩
      rw [onMessage_of_request jsonParse t data message hparse htype]
      intro hnil
      have hlen := forwardedRequests_handleTunnelRequest t message
      rw [hnil] at hlen
      exact absurd hlen (by decide)

/-! ## The tunnel path: terminal envelopes -/

theorem TunnelForward.run_cons (f : TunnelForward) (ev : HttpEvent) (rest : List HttpEvent) :
    f.run (ev :: rest) =
      (((f.onEvent ev).1.run rest).1, (f.onEvent ev).2 ++ ((f.onEvent ev).1.run rest).2) :=
  rfl

theorem run_data_then_finish (f : TunnelForward) (s : Int) (h : Json)
    (hres : f.res = some (s, h)) (chunks : List (List Nat)) :
    sentFrames (f.run (chunks.map HttpEvent.data ++ [HttpEvent.finish])).2 =
      [Json.obj ([("type", Json.str "response")] ++ optionalField "clientId" f.clientId ++
        [("statusCode", Json.num s), ("headers", h),
         ("data", Json.str (String.mk (base64Encode
            (bufferFrom (f.responseBody ++ accumulateBody chunks)))))])] := by
  induction chunks generalizing f with
  | nil =>
    simp [TunnelForward.run, TunnelForward.onEvent, hres, sentFrames, accumulateBody]
  | cons chunk rest ih =>
    have hstep : f.onEvent (HttpEvent.data chunk) =
        ({ f with responseBody := f.responseBody ++ bufferToString chunk }, []) := by
      simp [TunnelForward.onEvent, hres]
    have hrest := ih { f with responseBody := f.responseBody ++ bufferToString chunk } hres
    rw [List.map_cons, List.cons_append, TunnelForward.run_cons, hstep]
    dsimp only
    rw [List.nil_append, hrest]
    simp [accumulateBody, String.append_assoc]

/-- C1: for a request envelope carrying `clientId` c, issuing the request
sends nothing, a completed response (status s, headers h, any chunks) makes
the callbacks send exactly one frame, the `response` envelope with c, s and h,
and a request error makes them send exactly one frame, an `error` envelope
with c. -/
theorem one_terminal_envelope_per_request (t : Tunnel) (message c : Json) (s : Int) (h : Json)
    (chunks : List (List Nat)) (e : JsError) (hc : message.get "clientId" = some c) :
    sentFrames (t.handleTunnelRequest message).2 = [] ∧
    sentFrames ((t.handleTunnelRequest message).1.run
        ([HttpEvent.response s h] ++ chunks.map HttpEvent.data ++ [HttpEvent.finish])).2 =
      [Json.obj [("type", Json.str "response"), ("clientId", c), ("statusCode", Json.num s),
                 ("headers", h),
                 ("data", Json.str (String.mk (base64Encode
                    (bufferFrom (accumulateBody chunks)))))]] ∧
    ∃ rest, sentFrames ((t.handleTunnelRequest message).1.run [HttpEvent.error e]).2 =
      [Json.obj ([("type", Json.str "error"), ("clientId", c)] ++ rest)] := by
  refine ⟨rfl, ?_, ?_⟩
  · have hrun := run_data_then_finish
      { clientId := some c, targetPort := t.targetPort, res := some (s, h), responseBody := "" }
      s h rfl chunks
    have hfirst : (t.handleTunnelRequest message).1.onEvent (HttpEvent.response s h) =
        ({ clientId := some c, targetPort := t.targetPort, res := some (s, h),
           responseBody := "" }, []) := by
      simp [Tunnel.handleTunnelRequest, hc, TunnelForward.onEvent]
    rw [List.append_assoc, List.singleton_append, TunnelForward.run_cons, hfirst]
    dsimp only
    rw [List.nil_append, hrun]
    simp [optionalField]
  · refine ⟨[("error", Json.str e.message),
        ("details", Json.obj ([("targetPort", numberField t.targetPort)] ++
            optionalField "error" (e.code.map Json.str)))], ?_⟩
    simp [Tunnel.handleTunnelRequest, hc, TunnelForward.run, TunnelForward.onEvent, sentFrames,
      optionalField]

/-- C1 at the health request of scenario A answered `200` in two chunks. -/
theorem one_terminal_envelope_per_request_witness :
    healthRequest.get "clientId" = some (Json.str "c1") ∧
      sentFrames ((sampleTunnel.handleTunnelRequest healthRequest).1.run
        ([HttpEvent.response 200 (Json.obj [])] ++
          [[123, 34, 111, 107], [34, 58, 116, 114, 117, 101, 125]].map HttpEvent.data ++
          [HttpEvent.finish])).2 =
      [Json.obj [("type", Json.str "response"), ("clientId", Json.str "c1"),
                 ("statusCode", Json.num 200), ("headers", Json.obj []),
                 ("data", Json.str (String.mk (base64Encode (bufferFrom (accumulateBody
                    [[123, 34, 111, 107], [34, 58, 116, 114, 117, 101, 125]])))))]] :=
  ⟨rfl, (one_terminal_envelope_per_request sampleTunnel healthRequest (Json.str "c1") 200
    (Json.obj []) [[123, 34, 111, 107], [34, 58, 116, 114, 117, 101, 125]] connectionRefused
    rfl).2.1⟩

/-- C3: when the forward of a request envelope with `clientId` c fails with an
error of message m and code k, the tunnel built from `config` sends
`{ type: "error", clientId: c, error: m, details: { targetPort: p, error: k } }`
where p is the integer `parseInt` reads from `config.localPort`. -/
theorem forward_error_envelope (config : TunnelConfig) (id : String) (boundPort : Nat)
    (message c : Json) (e : JsError) (p : Int) (k : String)
    (hc : message.get "clientId" = some c) (hp : parseInt config.localPort = some p)
    (hk : e.code = some k) :
    sentFrames ((((Tunnel.constructor config id).start boundPort
        ConnectOutcome.opened).1.handleTunnelRequest message).1.run [HttpEvent.error e]).2 =
      [Json.obj [("type", Json.str "error"), ("clientId", c), ("error", Json.str e.message),
                 ("details", Json.obj [("targetPort", Json.num p), ("error", Json.str k)])]] := by
  simp [Tunnel.handleTunnelRequest, Tunnel.start, Tunnel.constructor, hc, hp, hk,
    TunnelForward.run, TunnelForward.onEvent, sentFrames, optionalField, numberField]

/-- C3 with nothing listening on port 4000: `details.error` is `ECONNREFUSED`
and `details.targetPort` is 4000. -/
theorem forward_error_envelope_witness :
    healthRequest.get "clientId" = some (Json.str "c1") ∧
      parseInt sampleConfig.localPort = some 4000 ∧
      connectionRefused.code = some "ECONNREFUSED" ∧
      sentFrames ((((Tunnel.constructor sampleConfig "k3x9a").start 51234
          ConnectOutcome.opened).1.handleTunnelRequest healthRequest).1.run
          [HttpEvent.error connectionRefused]).2 =
        [Json.obj [("type", Json.str "error"), ("clientId", Json.str "c1"),
                   ("error", Json.str connectionRefused.message),
                   ("details", Json.obj [("targetPort", Json.num 4000),
                                         ("error", Json.str "ECONNREFUSED")])]] :=
  ⟨rfl, by decide, rfl,
   forward_error_envelope sampleConfig "k3x9a" 51234 healthRequest (Json.str "c1")
     connectionRefused 4000 "ECONNREFUSED" rfl (by decide) rfl⟩

/-! ## The Host header -/

theorem lookupProp_setProp_same (key : String) (v : Json) (l : List (String × Json)) :
    lookupProp key (setProp key v l) = some v := by
  induction l with
  | nil => simp [setProp, lookupProp]
  | cons entry rest ih =>
    obtain ⟨k, w⟩ := entry
    by_cases hk : k = key
    · simp only [setProp, if_pos hk, lookupProp]
    · simp only [setProp, if_neg hk, lookupProp, ih]

theorem lookupProp_setProp_of_ne (key other : String) (v : Json) (h : other ≠ key)
    (l : List (String × Json)) :
    lookupProp other (setProp key v l) = lookupProp other l := by
  induction l with
  | nil =>
    have hne : ¬ key = other := fun hk => h hk.symm
    simp only [setProp, lookupProp, if_neg hne]
  | cons entry rest ih =>
    obtain ⟨k, w⟩ := entry
    by_cases hk : k = key
    · have hko : ¬ k = other := fun hko => h (hko.symm.trans hk)
      simp only [setProp, if_pos hk, lookupProp, if_neg hko]
    · by_cases hko : k = other
      · simp only [setProp, if_neg hk, lookupProp, if_pos hko]
      · simp only [setProp, if_neg hk, lookupProp, if_neg hko, ih]

theorem hostRewritten_setProp (p : Int) (inbound : List (String × Json))
    (hspell : ∀ name, isHostSpelling name = true → name ≠ "host" →
      lookupProp name inbound = none) :
    HostRewritten p inbound
      (setProp "host" (Json.str ("localhost:" ++ toString p)) inbound) := by
  refine ⟨lookupProp_setProp_same _ _ _, ?_, ?_⟩
  · intro name value hname hvalue
    by_cases hhost : name = "host"
    · rw [hhost, lookupProp_setProp_same] at hvalue
      exact (Option.some.inj hvalue).symm
    · rw [lookupProp_setProp_of_ne _ _ _ hhost, hspell name hname hhost] at hvalue
      exact Option.noConfusion hvalue
  · intro name hname
    have hhost : name ≠ "host" := by
      intro hh
      rw [hh] at hname
      exact absurd hname (by decide)
    exact lookupProp_setProp_of_ne _ _ _ hhost _

/-- C4, at an envelope whose headers carry both `host` and `Host`: only the
entry named `host` is replaced, the entry named `Host` goes out with the
inbound value, so another Host value remains.  (Node stores outbound headers
under their lower-cased name in property order, so this later entry is the
one written on the wire.) -/
theorem host_under_other_spelling_is_kept :
    (forwardedRequests (sampleTunnel.handleTunnelRequest twoHostsRequest).2).map
        (fun r => r.1.headers) =
      [[("host", Json.str "localhost:4000"), ("Host", Json.str "demo.dfanso.dev"),
        ("accept", Json.str "*/*")]] ∧
    ¬ HostRewritten 4000
        [("host", Json.str "demo.dfanso.dev"), ("Host", Json.str "demo.dfanso.dev"),
         ("accept", Json.str "*/*")]
        [("host", Json.str "localhost:4000"), ("Host", Json.str "demo.dfanso.dev"),
         ("accept", Json.str "*/*")] := by
  refine ⟨rfl, ?_⟩
  intro h
  have hvalue := h.2.1 "Host" (Json.str "demo.dfanso.dev") (by decide) rfl
  have hstr : "demo.dfanso.dev" = "localhost:" ++ toString (4000 : Int) := Json.str.inj hvalue
  exact absurd hstr (by decide)

/-- C4 as amended: when the inbound headers name the Host header, if at all,
only as `host`, both forwarding paths issue a request to the target port whose
headers carry `host` with the value `localhost:p`, give no other value under
any spelling of `Host`, pass every other header through unchanged, and keep
the path. -/
theorem host_header_rewritten (t : Tunnel) (p : Int) (message : Json)
    (inbound : List (String × Json)) (req : LocalRequest)
    (hport : t.targetPort = some p)
    (hheaders : message.get "headers" = some (Json.obj inbound))
    (hspell : ∀ name, isHostSpelling name = true → name ≠ "host" →
      lookupProp name inbound = none)
    (hspellLocal : ∀ name, isHostSpelling name = true → name ≠ "host" →
      lookupProp name req.headers = none) :
    (∃ options body,
      forwardedRequests (t.handleTunnelRequest message).2 = [(options, body)] ∧
      HostRewritten p inbound options.headers ∧
      options.path = message.get "path" ∧ options.port = some p ∧
      options.hostname = "localhost") ∧
    (∃ options body,
      forwardedRequests (t.handleLocalRequest req).2 = [(options, body)] ∧
      HostRewritten p req.headers options.headers ∧
      options.path = some (Json.str req.url) ∧ options.port = some p ∧
      options.hostname = "localhost") := by
  constructor
  · refine ⟨_, _, rfl, ?_, rfl, hport, rfl⟩
    simp only [hheaders, hport, spreadProps, numberToString]
    exact hostRewritten_setProp p inbound hspell
  · refine ⟨_, _, rfl, ?_, rfl, hport, rfl⟩
    simp only [hport, numberToString]
    exact hostRewritten_setProp p req.headers hspellLocal

/-- C4 as amended, at an envelope and an ingress request with lower-case
header names on the sample tunnel. -/
theorem host_header_rewritten_witness :
    sampleTunnel.targetPort = some 4000 ∧
    (∃ options body,
      forwardedRequests (sampleTunnel.handleTunnelRequest lowerCaseRequest).2 =
        [(options, body)] ∧
      HostRewritten 4000 [("host", Json.str "demo.dfanso.dev"), ("accept", Json.str "*/*")]
        options.headers ∧
      options.path = lowerCaseRequest.get "path" ∧ options.port = some 4000 ∧
      options.hostname = "localhost") ∧
    (∃ options body,
      forwardedRequests (sampleTunnel.handleLocalRequest echoRequest).2 = [(options, body)] ∧
      HostRewritten 4000 echoRequest.headers options.headers ∧
      options.path = some (Json.str echoRequest.url) ∧ options.port = some 4000 ∧
      options.hostname = "localhost") :=
  ⟨rfl,
   host_header_rewritten sampleTunnel 4000 lowerCaseRequest
     [("host", Json.str "demo.dfanso.dev"), ("accept", Json.str "*/*")] echoRequest rfl rfl
     (by
       intro name hname hne
       have h1 : ¬ "host" = name := fun h => hne h.symm
       have h2 : ¬ "accept" = name := by
         intro h
         rw [← h] at hname
         exact absurd hname (by decide)
       simp only [lookupProp, if_neg h1, if_neg h2])
     (by
       intro name hname hne
       have h1 : ¬ "host" = name := fun h => hne h.symm
       simp only [echoRequest, lookupProp, if_neg h1])⟩

/-! ## The response body -/

/-- C2 at a response body that is not UTF-8 text.  A body of the single byte
`0xFF` is sent as `data: "77+9"`, which decodes to the three bytes
`EF BF BD`; the two bytes `C3 A9` arriving in two chunks are sent as
`data: "77+977+9"`, which decodes to six bytes. -/
theorem binary_body_is_not_round_tripped :
    sentFrames ((sampleTunnel.handleTunnelRequest healthRequest).1.run
        [HttpEvent.response 200 (Json.obj []), HttpEvent.data [0xFF], HttpEvent.finish]).2 =
      [Json.obj [("type", Json.str "response"), ("clientId", Json.str "c1"),
                 ("statusCode", Json.num 200), ("headers", Json.obj []),
                 ("data", Json.str "77+9")]] ∧
    base64Decode "77+9".toList = some [0xEF, 0xBF, 0xBD] ∧
    base64Decode "77+9".toList ≠ some [0xFF] ∧
    sentFrames ((sampleTunnel.handleTunnelRequest healthRequest).1.run
        [HttpEvent.response 200 (Json.obj []), HttpEvent.data [0xC3], HttpEvent.data [0xA9],
         HttpEvent.finish]).2 =
      [Json.obj [("type", Json.str "response"), ("clientId", Json.str "c1"),
                 ("statusCode", Json.num 200), ("headers", Json.obj []),
                 ("data", Json.str "77+977+9")]] ∧
    base64Decode "77+977+9".toList = some [0xEF, 0xBF, 0xBD, 0xEF, 0xBF, 0xBD] ∧
    base64Decode "77+977+9".toList ≠ some [0xC3, 0xA9] :=
  ⟨rfl, by decide, by decide, rfl, by decide, by decide⟩

/-! ## The prompt validators -/

theorem stripSign_of_digit (c : Char) (rest : List Char) (hc : 48 ≤ c.toNat) :
    stripSign (c :: rest) = (1, c :: rest) := by
  unfold stripSign
  split
  · rename_i heq
    have : c = '-' := (List.cons.inj heq).1
    rw [this] at hc
    exact absurd hc (by decide)
  · rename_i heq
    have : c = '+' := (List.cons.inj heq).1
    rw [this] at hc
    exact absurd hc (by decide)
  · rfl

theorem stripHexMarker_of_digits (cs : List Char)
    (hall : ∀ c ∈ cs, 48 ≤ c.toNat ∧ c.toNat ≤ 57) : stripHexMarker cs = (10, cs) := by
  unfold stripHexMarker
  split
  · rename_i rest
    have := (hall 'x' (by simp)).2
    exact absurd this (by decide)
  · rename_i rest
    have := (hall 'X' (by simp)).2
    exact absurd this (by decide)
  · rfl

theorem leadingDigits_of_digits (cs : List Char)
    (hall : ∀ c ∈ cs, 48 ≤ c.toNat ∧ c.toNat ≤ 57) :
    leadingDigits 10 cs = cs.map (fun c => c.toNat - 48) := by
  induction cs with
  | nil => rfl
  | cons c rest ih =>
    have hc := hall c (by simp)
    have hd : digitOf 10 c = some (c.toNat - 48) := by
      have h1 : c.toNat - 48 < 10 := by omega
      simp [digitOf, hc.1, hc.2, h1]
    simp only [leadingDigits, hd, List.map_cons]
    rw [ih (fun x hx => hall x (by simp [hx]))]

theorem foldl_digits_map (cs : List Char) (acc : Nat) :
    (cs.map (fun c => c.toNat - 48)).foldl (fun acc d => acc * 10 + d) acc =
      cs.foldl (fun acc c => acc * 10 + (c.toNat - 48)) acc := by
  induction cs generalizing acc with
  | nil => rfl
  | cons c rest ih => simp only [List.map_cons, List.foldl_cons, ih]

theorem parseInt_of_digits (input : String) (hne : input.toList ≠ [])
    (hall : ∀ c ∈ input.toList, 48 ≤ c.toNat ∧ c.toNat ≤ 57) :
    parseInt input =
      some ((input.toList.foldl (fun acc c => acc * 10 + (c.toNat - 48)) 0 : Nat) : Int) := by
  obtain ⟨c, rest, hcs⟩ := List.exists_cons_of_ne_nil hne
  have hc := hall c (by rw [hcs]; simp)
  have hws : isStrWhiteSpace c = false := by
    have h1 := hc.1
    have h2 := hc.2
    simp [isStrWhiteSpace]
    omega
  have hdrop : input.toList.dropWhile isStrWhiteSpace = input.toList := by
    rw [hcs, List.dropWhile_cons, hws]
    rfl
  have hsign : stripSign input.toList = (1, input.toList) := by
    rw [hcs]; exact stripSign_of_digit c rest hc.1
  have hhex := stripHexMarker_of_digits input.toList hall
  have hlead := leadingDigits_of_digits input.toList hall
  have hnonempty : (input.toList.map (fun c => c.toNat - 48)).isEmpty = false := by
    rw [hcs]; rfl
  simp only [parseInt, hdrop, hsign, hhex, hlead, hnonempty, foldl_digits_map]
  simp

theorem port_validators_accept_every_port (input : String) (h : denotesPort input = true) :
    validateLocalPort input = Validation.accept ∧
      validateServerPort input = Validation.accept := by
  simp only [denotesPort, Bool.and_eq_true, Bool.not_eq_true', List.all_eq_true,
    decide_eq_true_eq] at h
  obtain ⟨⟨⟨hne, hall⟩, hlo⟩, hhi⟩ := h
  have hne2 : input.toList ≠ [] := by
    intro hnil
    rw [hnil] at hne
    exact absurd hne (by decide)
  have hparse := parseInt_of_digits input hne2 hall
  constructor
  · simp only [validateLocalPort, hparse]
    rw [if_neg]
    omega
  · simp only [validateServerPort, hparse]
    rw [if_neg]
    omega

theorem validateSubdomain_accepts_iff (input : String) :
    validateSubdomain input = Validation.accept ↔
      input = "" ∨ subdomainRegexTest input = true := by
  unfold validateSubdomain
  by_cases hempty : input = ""
  · simp [hempty]
  · cases htest : subdomainRegexTest input <;> simp [hempty, htest]

/-- C6 at inputs that are not integers: the port validators return `true` for
`8080abc` and `80.5`, and the accepted `serverPort` goes into the URL of the
control connection as typed. -/
theorem port_validators_accept_non_integers :
    validateServerPort "8080abc" = Validation.accept ∧
    validateLocalPort "80.5" = Validation.accept ∧
    denotesPort "8080abc" = false ∧
    denotesPort "80.5" = false ∧
    (Tunnel.constructor { localPort := "80.5", subdomain := none, serverIp := "dfanso.dev",
                          serverPort := "8080abc" } "k3x9a").wsUrl =
      "wss://dfanso.dev:8080abc" := by
  refine ⟨by decide, by decide, by decide, by decide, by decide⟩

end TunnelClient
